/-
Verification of the SlideDeckAI application (`app.py`): a shallow embedding
of its data model, LLM-client fallback logic, PowerPoint exporter and UI
event handlers, together with theorems about the specified behaviour.

Conventions of the embedding:
* Python `int` is modelled as `Int`; Python `range(n)` over a possibly
  negative bound clamps at zero (`Int.toNat`).
* Fallible Python code (code that may raise) is modelled with `Option`
  or `Except`; a `none` / `.error` result is a raised exception.
* Network calls and filesystem state are inputs of the embedded
  functions (oracle parameters), since the Python code performs I/O there.
-/
import Mathlib

set_option autoImplicit false
set_option maxRecDepth 8000

namespace SlideDeckAI

/-! ### Data model (`app.py`, dataclasses) -/

/-- `SlideData` dataclass: title, content and an image-placeholder URL. -/
structure SlideData where
  title : String
  content : String
  image_placeholder : String := "https://via.placeholder.com/400x300/cccccc/666666?text=Image+Placeholder"
  deriving Repr, DecidableEq

/-- `SlideTopic` dataclass: title, description and an (advisory) order. -/
structure SlideTopic where
  title : String
  description : String := ""
  order : Int := 0
  deriving Repr, DecidableEq

/-- `PresentationConfig` dataclass with its Python default values. -/
structure PresentationConfig where
  topic : String := ""
  num_slides : Int := 5
  content_format : String := "bulleted_list"
  background_color : String := "#ffffff"
  text_color : String := "#000000"
  audience : String := "colleagues"
  tone : String := "professional"
  scene : String := "general_scene"
  deriving Repr, DecidableEq

/-- `AppState` dataclass: the process-wide mutable state container. -/
structure AppState where
  config : PresentationConfig := {}
  slides : List SlideData := []
  slide_topics : List SlideTopic := []
  is_generating : Bool := false
  is_generating_topics : Bool := false
  error_message : String := ""
  generated_pptx : Option String := none
  show_topic_breakdown : Bool := false
  uploaded_file_content : String := ""
  download_filename : String := ""
  download_ready : Bool := false
  deriving Repr, DecidableEq

/-! ### Color tables (`BACKGROUND_COLORS`, `TEXT_COLORS`) -/

/-- The `BACKGROUND_COLORS` option table (label, hex value). -/
def BACKGROUND_COLORS : List (String × String) :=
  [("White", "#ffffff"), ("Light Gray", "#f5f5f5"), ("Dark Gray", "#333333"),
   ("Light Blue", "#e3f2fd"), ("Light Green", "#e8f5e9"), ("Light Purple", "#f3e5f5"),
   ("Light Orange", "#fff3e0"), ("Black", "#000000")]

/-- The `TEXT_COLORS` option table (label, hex value). -/
def TEXT_COLORS : List (String × String) :=
  [("Black", "#000000"), ("Dark Gray", "#333333"), ("Blue", "#1976d2"),
   ("Green", "#388e3c"), ("Purple", "#7b1fa2"), ("Orange", "#f57c00"),
   ("Red", "#d32f2f"), ("White", "#ffffff")]

/-! ### `PPTXExporter._hex_to_rgb`

Python's `int(s, 16)` is modelled on strings made of plain ASCII hex
digits (the only shapes arising from color strings considered here); any
other string is treated as raising `ValueError`. -/

/-- ASCII hexadecimal digit test (`0-9`, `a-f`, `A-F`), via code points. -/
def isHexDigitChar (c : Char) : Bool :=
  (48 ≤ c.toNat && c.toNat ≤ 57) || (97 ≤ c.toNat && c.toNat ≤ 102) ||
    (65 ≤ c.toNat && c.toNat ≤ 70)

/-- Numeric value of an ASCII hex digit (0 for non-digits). -/
def hexDigitVal (c : Char) : Nat :=
  if 48 ≤ c.toNat && c.toNat ≤ 57 then c.toNat - 48
  else if 97 ≤ c.toNat && c.toNat ≤ 102 then c.toNat - 97 + 10
  else if 65 ≤ c.toNat && c.toNat ≤ 70 then c.toNat - 65 + 10
  else 0

/-- Python `int(s, 16)` on a character list: succeeds on a nonempty string
of hex digits, positional value base 16; otherwise raises (`none`). -/
def pyIntHex (cs : List Char) : Option Nat :=
  if cs ≠ [] ∧ cs.all isHexDigitChar then
    some (cs.foldl (fun acc c => 16 * acc + hexDigitVal c) 0)
  else none

/-- Python slice `l[i:j]` (for `0 ≤ i ≤ j`) on a character list. -/
def pySlice (l : List Char) (i j : Nat) : List Char :=
  (l.drop i).take (j - i)

/-- `PPTXExporter._hex_to_rgb` on the character list of the input: strip
leading `#` characters (`str.lstrip('#')`), then parse the three byte
pairs at offsets 0, 2, 4. A failed parse is a raised `ValueError`
(`none`). -/
def hex_to_rgb_chars (cs : List Char) : Option (Nat × Nat × Nat) :=
  let stripped := cs.dropWhile (fun c => c = '#')
  match pyIntHex (pySlice stripped 0 2), pyIntHex (pySlice stripped 2 4),
      pyIntHex (pySlice stripped 4 6) with
  | some r, some g, some b => some (r, g, b)
  | _, _, _ => none

/-- `PPTXExporter._hex_to_rgb`, taking the hex color as a string. -/
def hex_to_rgb (hex_color : String) : Option (Nat × Nat × Nat) :=
  hex_to_rgb_chars hex_color.data

/-- Spec-side predicate (from the claim's words, for comparison with the
source function): a string of the form `#` followed by exactly six
hexadecimal digits. -/
def specHexForm (s : String) : Bool :=
  match s.data with
  | '#' :: rest => rest.length = 6 && rest.all isHexDigitChar
  | _ => false

/-! ### `LLMClient.generate_slide_topics` and its mock fallback

The chat-completion call, `json.loads` of the response and its shape are
modelled by `TopicsServiceResult`: `.failure` stands for any exception up
to and including producing a well-shaped JSON array (network error,
malformed JSON, a non-array value, non-object elements); `.success`
carries the array, each element a JSON object whose three relevant fields
may each be absent. -/

/-- One element of the JSON array returned by the topics call; `none`
fields are absent keys. -/
structure TopicJson where
  title : Option String := none
  description : Option String := none
  order : Option Int := none
  deriving Repr, DecidableEq

/-- Outcome of the chat-completion call in `generate_slide_topics`. -/
inductive TopicsServiceResult where
  | failure
  | success (topics : List TopicJson)
  deriving Repr, DecidableEq

/-- `LLMClient._generate_mock_topics`: `num_slides` synthetic topics,
titled `"<topic> - Topic <i>"`, 1-indexed, with matching description and
order. Python `range` clamps a negative count at zero. -/
def generate_mock_topics (topic : String) (num_slides : Int) : List SlideTopic :=
  (List.range num_slides.toNat).map fun (i : Nat) =>
    { title := topic ++ " - Topic " ++ toString (i + 1)
      description := "This slide will cover aspect " ++ toString (i + 1) ++ " of " ++ topic
      order := (i : Int) + 1 }

/-- The list comprehension in the `try` block of `generate_slide_topics`:
`topic_data["title"]` raises `KeyError` when absent (aborting the whole
comprehension, hence `none`); `description` and `order` use `.get` with
defaults `""` and `i + 1` (`i` the 0-based `enumerate` index). -/
def buildTopics (i : Nat) : List TopicJson → Option (List SlideTopic)
  | [] => some []
  | tj :: tjs =>
    match tj.title with
    | none => none
    | some t =>
      (buildTopics (i + 1) tjs).map fun rest =>
        { title := t
          description := tj.description.getD ""
          order := tj.order.getD ((i : Int) + 1) } :: rest

/-- `LLMClient.generate_slide_topics`: parse the service response; on any
exception fall back to `generate_mock_topics`. -/
def generate_slide_topics (topic : String) (num_slides : Int)
    (svc : TopicsServiceResult) : List SlideTopic :=
  match svc with
  | .failure => generate_mock_topics topic num_slides
  | .success tds =>
    match buildTopics 0 tds with
    | some l => l
    | none => generate_mock_topics topic num_slides

/-- The ways the topics call can fail in `generate_slide_topics`: the call
itself raises, or an array element lacks the `title` key. -/
def topicsCallFails (svc : TopicsServiceResult) : Prop :=
  svc = .failure ∨ ∃ tds, svc = .success tds ∧ buildTopics 0 tds = none

/-! ### `LLMClient.generate_slides`

Each topic triggers an independent chat-completion call; `svc i` is the
outcome of the call for the `i`-th topic (0-based). -/

/-- The JSON object expected from the per-slide content call; `none`
fields are absent keys. -/
structure ContentJson where
  title : Option String := none
  content : Option String := none
  deriving Repr, DecidableEq

/-- Outcome of one per-slide content call. -/
inductive ContentResult where
  | failure
  | success (json : ContentJson)
  deriving Repr, DecidableEq

/-- The deterministic placeholder built in the `except` branch of
`generate_slides`: four fixed bullet lines for `"bulleted_list"`, a
templated two-sentence paragraph otherwise. -/
def fallbackSlide (content_format : String) (topic : SlideTopic) : SlideData :=
  if content_format = "bulleted_list" then
    { title := topic.title
      content := "• Key point 1 about " ++ topic.title ++
        "\n• Important aspect to consider\n• Benefits and advantages\n• Future implications" }
  else
    { title := topic.title
      content := "This slide covers " ++ topic.description ++
        ". We\x27ll explore the key concepts and their practical applications in this context." }

/-- The loop body of `generate_slides` for one topic: on a successful call
with both JSON keys present the returned title/content are used;
`json.loads` failure or a missing key raises inside the `try`, so the
`except` branch appends the placeholder instead. -/
def slideFromResult (content_format : String) (topic : SlideTopic)
    (r : ContentResult) : SlideData :=
  match r with
  | .success j =>
    match j.title, j.content with
    | some t, some c => { title := t, content := c }
    | _, _ => fallbackSlide content_format topic
  | .failure => fallbackSlide content_format topic

/-- The loop of `generate_slides`, carrying the 0-based position. -/
def generate_slides_go (content_format : String) (svc : Nat → ContentResult) :
    Nat → List SlideTopic → List SlideData
  | _, [] => []
  | i, t :: ts =>
    slideFromResult content_format t (svc i) :: generate_slides_go content_format svc (i + 1) ts

/-- `LLMClient.generate_slides`: one output record per input topic, in
order, with per-item failure isolation. -/
def generate_slides (slide_topics : List SlideTopic) (content_format : String)
    (svc : Nat → ContentResult) : List SlideData :=
  generate_slides_go content_format svc 0 slide_topics

/-- The ways one per-slide content call can fail: the call raises, or the
JSON object lacks `title` or `content`. -/
def contentCallFails (r : ContentResult) : Prop :=
  r = .failure ∨ ∃ j, r = .success j ∧ (j.title = none ∨ j.content = none)

/-! ### `PPTXExporter.create_presentation`

A slide of the in-memory presentation is modelled by the attributes the
exporter reads or writes: its solid background fill (if any), whether it
has a title placeholder and a placeholder with `idx == 1`, and the text
and colors written into them.  Library-level details that the exporter
only passes through (slide geometry, font sizes, XML relationship
bookkeeping) are not tracked; dropping a trailing slide removes it from
the slide list. -/

/-- The exporter-visible state of one slide. -/
structure SlideModel where
  background : Option (Nat × Nat × Nat) := none
  hasTitlePlaceholder : Bool := true
  titleText : String := ""
  titleColor : Option (Nat × Nat × Nat) := none
  hasContentPlaceholder : Bool := true
  contentText : String := ""
  contentColor : Option (Nat × Nat × Nat) := none
  deriving Repr, DecidableEq

/-- State of the `Title.pptx` template file on disc: absent, present but
raising on open, or present with a given slide pool. -/
inductive TemplateState where
  | absent
  | unreadable
  | present (slides : List SlideModel)
  deriving Repr, DecidableEq

/-- The `try` block opening the template: absence and any open-time
exception both fall back to a blank presentation, whose slide pool is
empty. -/
def loadTemplate : TemplateState → List SlideModel
  | .absent => []
  | .unreadable => []
  | .present ts => ts

/-- A slide freshly added from `prs.slide_layouts[1]` (Title and Content):
both placeholders present, no explicit background fill yet. -/
def newLayoutSlide : SlideModel := {}

/-- The body of the per-slide loop in `create_presentation`: conditionally
set the background, write the title placeholder (bold 32pt, text color)
when present, write the `idx == 1` placeholder (18pt, text color) when
present.  A `_hex_to_rgb` failure raises out of the whole export. -/
def processSlide (config : PresentationConfig) (is_new : Bool)
    (base : SlideModel) (sd : SlideData) : Option SlideModel := do
  let s1 ←
    if is_new || config.background_color ≠ "#ffffff" then do
      let bg ← hex_to_rgb config.background_color
      pure { base with background := some bg }
    else pure base
  let s2 ←
    if s1.hasTitlePlaceholder then do
      let tc ← hex_to_rgb config.text_color
      pure { s1 with titleText := sd.title, titleColor := some tc }
    else pure s1
  if s2.hasContentPlaceholder then do
    let tc ← hex_to_rgb config.text_color
    pure { s2 with contentText := sd.content, contentColor := some tc }
  else pure s2

/-- The `for i, slide_data in enumerate(slides)` loop: while template
slides remain they are updated in place (`is_new = false`); template
slides beyond the data are left untouched; extra data appends new slides
from the Title-and-Content layout. -/
def loopSlides (config : PresentationConfig) :
    List SlideModel → List SlideData → Option (List SlideModel)
  | es, [] => some es
  | [], sd :: sds => do
    let s ← processSlide config true newLayoutSlide sd
    let rest ← loopSlides config [] sds
    pure (s :: rest)
  | e :: es, sd :: sds => do
    let s ← processSlide config false e sd
    let rest ← loopSlides config es sds
    pure (s :: rest)

/-- `PPTXExporter.create_presentation`: load the template (never raising),
run the update loop, then, when the template supplied more slides than
there are data records, drop the surplus trailing slides (the reverse
`range` loop removes exactly the entries at indices
`len(slides) .. len(existing)-1`). -/
def create_presentation (config : PresentationConfig) (tstate : TemplateState)
    (slides : List SlideData) : Option (List SlideModel) := do
  let existing := loadTemplate tstate
  let pool ← loopSlides config existing slides
  if slides.length < existing.length then
    pure (pool.take slides.length)
  else
    pure pool

/-! ### Python `int(str)` parsing (used by `on_num_slides_change`) -/

/-- ASCII whitespace stripped by Python around an `int` literal. -/
def isPySpace (c : Char) : Bool :=
  c = ' ' || c = '\t' || c = '\n' || c = '\x0d' || c = '\x0b' || c = '\x0c'

/-- ASCII decimal digit test. -/
def isDecDigit (c : Char) : Bool :=
  48 ≤ c.toNat && c.toNat ≤ 57

/-- Remaining digits of a Python integer literal: decimal digits, with a
single underscore allowed only between two digits. -/
def pyDigitsAux (acc : Nat) : List Char → Option Nat
  | [] => some acc
  | '_' :: c :: rest =>
    if isDecDigit c then pyDigitsAux (10 * acc + (c.toNat - 48)) rest else none
  | '_' :: [] => none
  | c :: rest =>
    if isDecDigit c then pyDigitsAux (10 * acc + (c.toNat - 48)) rest else none

/-- Digit part of a Python integer literal: nonempty, starts with a digit. -/
def pyParseDigits : List Char → Option Nat
  | [] => none
  | c :: rest => if isDecDigit c then pyDigitsAux (c.toNat - 48) rest else none

/-- Python `int(s)` on a string: strip surrounding whitespace, optional
sign, then a digit sequence; anything else raises `ValueError` (`none`).
(Python additionally accepts non-ASCII decimal digits and Unicode spaces;
those are outside this model.) -/
def pyInt (s : String) : Option Int :=
  let cs := ((s.data.dropWhile isPySpace).reverse.dropWhile isPySpace).reverse
  match cs with
  | '+' :: rest => (pyParseDigits rest).map Int.ofNat
  | '-' :: rest => (pyParseDigits rest).map fun n => -(n : Int)
  | rest => (pyParseDigits rest).map Int.ofNat

/-! ### Event handlers -/

/-- `on_num_slides_change`: store `int(e.value)`, defaulting to 5 when the
parse raises `ValueError`; then collapse the topic breakdown. -/
def on_num_slides_change (value : String) (s : AppState) : AppState :=
  let config :=
    match pyInt value with
    | some n => { s.config with num_slides := n }
    | none => { s.config with num_slides := 5 }
  { s with config := config, show_topic_breakdown := false, slide_topics := [] }

/-- In-place element update `l[i].f = v` on an embedded list. -/
def listModify {α : Type} : List α → Nat → (α → α) → List α
  | [], _, _ => []
  | x :: xs, 0, f => f x :: xs
  | x :: xs, n + 1, f => x :: listModify xs n f

/-- `on_slide_topic_change`: guarded by `0 <= index < len(slide_topics)`,
mutate only the `title` of the topic at `index`. -/
def on_slide_topic_change (index : Int) (value : String) (s : AppState) : AppState :=
  if 0 ≤ index ∧ index < (s.slide_topics.length : Int) then
    { s with slide_topics :=
        listModify s.slide_topics index.toNat fun t => { t with title := value } }
  else s

/-- `on_slide_description_change`: same guard, mutating only
`description`. -/
def on_slide_description_change (index : Int) (value : String) (s : AppState) : AppState :=
  if 0 ≤ index ∧ index < (s.slide_topics.length : Int) then
    { s with slide_topics :=
        listModify s.slide_topics index.toNat fun t => { t with description := value } }
  else s

/-- Python `s.replace(old, new)` for a single-character pattern and
replacement: a character-wise substitution. -/
def pyReplaceChar (s : String) (old new : Char) : String :=
  ⟨s.data.map fun c => if c = old then new else c⟩

/-- `topic_clean`: Python `topic[:30].replace(' ', '_').replace('/', '_')
.replace('\\', '_')`; each `replace` has a single-character pattern, i.e.
a character-wise substitution. -/
def topic_clean (topic : String) : String :=
  pyReplaceChar (pyReplaceChar (pyReplaceChar (topic.take 30) ' ' '_') '/' '_') '\\' '_'

/-- The download filename built in `on_generate_slides` and
`on_download_pptx`: `f"presentation_\x7btopic_clean\x7d.pptx"`. -/
def download_filename_for (topic : String) : String :=
  "presentation_" ++ topic_clean topic ++ ".pptx"

/-- The hard-coded demo `state.slides` assigned in `on_generate_slides`. -/
def demoSlides : List SlideData :=
  [{ title := "Introduction to Risk Management in Banking"
     content := "• Key point 1 about Introduction to Risk Management in Banking\n• Important aspect to consider\n• Benefits and advantages\n• Future implications" },
   { title := "Types of Risks in Banking: Understanding the Landscape"
     content := "• Key point 1 about Types of Risks in Banking: Understanding the Landscape\n• Important aspect to consider\n• Benefits and advantages\n• Future implications" }]

/-- `on_generate_slides`: early-return when no topics exist; otherwise
reset the artifact state, assign the demo slides, run the export (whose
outcome — the base64 string or a raised exception — is the oracle
`exportR`), prepare the download on a truthy result, surface any
exception as an error message, and clear `is_generating` in `finally`. -/
def on_generate_slides (exportR : Except String String) (s : AppState) : AppState :=
  if s.slide_topics = [] then
    { s with error_message := "Please generate slide topics first." }
  else
    let s1 := { s with is_generating := true, error_message := "", slides := [],
                       generated_pptx := none, download_ready := false }
    let s2 :=
      match exportR with
      | .error msg =>
        { s1 with slides := demoSlides,
                  error_message := "Error generating slides: " ++ msg }
      | .ok pptx =>
        let sa := { s1 with slides := demoSlides, generated_pptx := some pptx }
        if pptx ≠ "" then
          { sa with download_filename := download_filename_for sa.config.topic,
                    download_ready := true,
                    error_message := "✅ Presentation generated successfully!" }
        else sa
    { s2 with is_generating := false }

/-- `on_download_pptx`: when a truthy artifact exists, set the filename
and mark the download ready (the `try` body is plain assignments and
cannot raise). -/
def on_download_pptx (s : AppState) : AppState :=
  match s.generated_pptx with
  | some pptx =>
    if pptx ≠ "" then
      { s with download_filename := download_filename_for s.config.topic,
               download_ready := true,
               error_message := "✅ \x27" ++ download_filename_for s.config.topic ++
                 "\x27 ready for download." }
    else s
  | none => s

/-! ### Helper lemmas -/

theorem listModify_length {α : Type} (l : List α) (i : Nat) (f : α → α) :
    (listModify l i f).length = l.length := by
  induction l generalizing i with
  | nil => rfl
  | cons x xs ih =>
    cases i with
    | zero => rfl
    | succ n => simpa [listModify] using ih n

theorem listModify_getElem_ne {α : Type} (l : List α) (i : Nat) (f : α → α)
    (j : Nat) (h : j ≠ i) : (listModify l i f)[j]? = l[j]? := by
  induction l generalizing i j with
  | nil => rfl
  | cons x xs ih =>
    cases i with
    | zero =>
      cases j with
      | zero => exact absurd rfl h
      | succ m => simp [listModify]
    | succ n =>
      cases j with
      | zero => simp [listModify]
      | succ m => simpa [listModify] using ih n m (fun hc => h (by omega))

theorem listModify_getElem_eq {α : Type} (l : List α) (i : Nat) (f : α → α) :
    (listModify l i f)[i]? = (l[i]?).map f := by
  induction l generalizing i with
  | nil => rfl
  | cons x xs ih =>
    cases i with
    | zero => simp [listModify]
    | succ n => simpa [listModify] using ih n

/-! ### Claim theorems -/

/-- C7: `on_num_slides_change` stores the parsed integer when `int(value)`
succeeds and stores the default 5 when the parse raises `ValueError`. -/
theorem num_slides_change_spec (s : AppState) (v : String) :
    (pyInt v = none → (on_num_slides_change v s).config.num_slides = 5) ∧
    (∀ n : Int, pyInt v = some n → (on_num_slides_change v s).config.num_slides = n) := by
  constructor
  · intro h; simp [on_num_slides_change, h]
  · intro n h; simp [on_num_slides_change, h]

/-- Witness for C7: a non-numeric input defaults to 5; a numeric input is
stored as parsed. -/
theorem num_slides_change_spec_witness :
    (on_num_slides_change "abc" {}).config.num_slides = 5 ∧
    (on_num_slides_change "7" {}).config.num_slides = 7 :=
  ⟨(num_slides_change_spec {} "abc").1 (by decide),
   (num_slides_change_spec {} "7").2 7 (by decide)⟩

/-- C8 counterexample: the claim says whitespace characters are replaced
by underscores, but the code only replaces the space character: a tab in
the topic survives into the filename. -/
theorem download_filename_counterexample :
    download_filename_for "a\tb" = "presentation_a\tb.pptx" ∧
    download_filename_for "a\tb" ≠ "presentation_a_b.pptx" := by
  constructor
  · rfl
  · decide

/-- C8 (amended): the download filename is `presentation_` ++ the first 30
characters of the topic with space characters (`' '`, not all whitespace)
and the path separators `'/'` and `'\\'` replaced by underscores, ++
`.pptx`. -/
theorem download_filename_spec (topic : String) :
    download_filename_for topic = "presentation_" ++
      (⟨(topic.take 30).data.map fun c =>
          if c = ' ' || c = '/' || c = '\\' then '_' else c⟩ : String) ++ ".pptx" := by
  have key : ∀ l : List Char,
      ((l.map fun c => if c = ' ' then '_' else c).map fun c =>
          if c = '/' then '_' else c).map (fun c => if c = '\\' then '_' else c) =
        l.map fun c => if c = ' ' || c = '/' || c = '\\' then '_' else c := by
    intro l
    induction l with
    | nil => rfl
    | cons c cs ih =>
      simp only [List.map_cons, ih, List.cons.injEq, and_true]
      by_cases h1 : c = ' ' <;> by_cases h2 : c = '/' <;> by_cases h3 : c = '\\' <;>
        simp [h1, h2, h3]
  unfold download_filename_for topic_clean pyReplaceChar
  rw [key]

/-- C9: the slide-title and slide-description edit handlers are no-ops
(state returned unchanged, no exception) for an out-of-range index; for an
in-range index only `slide_topics` changes, its length is preserved, every
other entry is unchanged, and the entry at the index changes only in its
`title` (resp. `description`) field. -/
theorem slide_edit_handlers_spec (s : AppState) (index : Int) (v : String) :
    (¬ (0 ≤ index ∧ index < (s.slide_topics.length : Int)) →
      on_slide_topic_change index v s = s ∧ on_slide_description_change index v s = s) ∧
    ((0 ≤ index ∧ index < (s.slide_topics.length : Int)) →
      on_slide_topic_change index v s =
        { s with slide_topics := (on_slide_topic_change index v s).slide_topics } ∧
      on_slide_description_change index v s =
        { s with slide_topics := (on_slide_description_change index v s).slide_topics } ∧
      (on_slide_topic_change index v s).slide_topics.length = s.slide_topics.length ∧
      (on_slide_description_change index v s).slide_topics.length = s.slide_topics.length ∧
      (∀ j : Nat, j ≠ index.toNat →
        (on_slide_topic_change index v s).slide_topics[j]? = s.slide_topics[j]? ∧
        (on_slide_description_change index v s).slide_topics[j]? = s.slide_topics[j]?) ∧
      (∀ t, s.slide_topics[index.toNat]? = some t →
        (on_slide_topic_change index v s).slide_topics[index.toNat]? =
          some { t with title := v } ∧
        (on_slide_description_change index v s).slide_topics[index.toNat]? =
          some { t with description := v })) := by
  constructor
  · intro h
    constructor
    · simp [on_slide_topic_change, h]
    · simp [on_slide_description_change, h]
  · intro h
    have ht : on_slide_topic_change index v s =
        { s with slide_topics :=
            listModify s.slide_topics index.toNat fun t => { t with title := v } } := by
      simp [on_slide_topic_change, h]
    have hd : on_slide_description_change index v s =
        { s with slide_topics :=
            listModify s.slide_topics index.toNat fun t => { t with description := v } } := by
      simp [on_slide_description_change, h]
    refine ⟨by rw [ht], by rw [hd], by rw [ht]; exact listModify_length _ _ _,
      by rw [hd]; exact listModify_length _ _ _, ?_, ?_⟩
    · intro j hj
      rw [ht, hd]
      exact ⟨listModify_getElem_ne _ _ _ _ hj, listModify_getElem_ne _ _ _ _ hj⟩
    · intro t hsome
      rw [ht, hd]
      constructor
      · rw [listModify_getElem_eq, hsome]; rfl
      · rw [listModify_getElem_eq, hsome]; rfl

/-- Witness for C9: an out-of-range edit leaves a concrete two-topic state
unchanged, and an in-range edit at index 0 rewrites exactly the title. -/
theorem slide_edit_handlers_spec_witness :
    on_slide_topic_change 5 "x"
        { slide_topics := [{ title := "a" }, { title := "b" }] } =
      { slide_topics := [{ title := "a" }, { title := "b" }] } ∧
    (on_slide_topic_change 0 "x"
        { slide_topics := [{ title := "a" }, { title := "b" }] }).slide_topics[0]? =
      some { title := "x" } :=
  ⟨((slide_edit_handlers_spec { slide_topics := [{ title := "a" }, { title := "b" }] }
      5 "x").1 (by decide)).1,
   (((slide_edit_handlers_spec { slide_topics := [{ title := "a" }, { title := "b" }] }
      0 "x").2 (by decide)).2.2.2.2.2 { title := "a" } (by decide)).1⟩

/-- C4: when the export step raises inside `on_generate_slides`, the
message is surfaced as `"Error generating slides: <msg>"`, `is_generating`
is cleared by the `finally` block (on the success path too), and no
partial artifact is exposed: `generated_pptx` stays `None` and
`download_ready` stays `False`. -/
theorem generate_slides_handler_error_spec (s : AppState) (msg : String)
    (h : s.slide_topics ≠ []) :
    (on_generate_slides (.error msg) s).is_generating = false ∧
    (on_generate_slides (.error msg) s).error_message = "Error generating slides: " ++ msg ∧
    (on_generate_slides (.error msg) s).generated_pptx = none ∧
    (on_generate_slides (.error msg) s).download_ready = false ∧
    ∀ b : String, (on_generate_slides (.ok b) s).is_generating = false := by
  refine ⟨?_, ?_, ?_, ?_, ?_⟩ <;> simp [on_generate_slides, h]

/-- Witness for C4: on a one-topic state, a raised export surfaces the
message and exposes no artifact, and a successful export clears the
in-progress flag. -/
theorem generate_slides_handler_error_spec_witness :
    (on_generate_slides (.error "boom")
        { slide_topics := [{ title := "a" }] }).error_message =
      "Error generating slides: boom" ∧
    (on_generate_slides (.error "boom")
        { slide_topics := [{ title := "a" }] }).generated_pptx = none ∧
    (on_generate_slides (.ok "QQ")
        { slide_topics := [{ title := "a" }] }).is_generating = false :=
  ⟨(generate_slides_handler_error_spec { slide_topics := [{ title := "a" }] } "boom"
      (by decide)).2.1,
   (generate_slides_handler_error_spec { slide_topics := [{ title := "a" }] } "boom"
      (by decide)).2.2.1,
   (generate_slides_handler_error_spec { slide_topics := [{ title := "a" }] } "boom"
      (by decide)).2.2.2.2 "QQ"⟩

/-- C6: the template-loading step is total — both an absent template file
and one whose open raises are handled locally, and the export proceeds
exactly as with a blank (slide-free) presentation. -/
theorem template_fallback_spec (config : PresentationConfig) (slides : List SlideData) :
    create_presentation config .absent slides =
      create_presentation config (.present []) slides ∧
    create_presentation config .unreadable slides =
      create_presentation config (.present []) slides :=
  ⟨rfl, rfl⟩

theorem generate_mock_topics_getElem (topic : String) (n : Int) (i : Nat) :
    (generate_mock_topics topic n)[i]? =
      if i < n.toNat then
        some { title := topic ++ " - Topic " ++ toString (i + 1)
               description := "This slide will cover aspect " ++ toString (i + 1) ++
                 " of " ++ topic
               order := (i : Int) + 1 }
      else none := by
  unfold generate_mock_topics
  by_cases h : i < n.toNat
  · rw [if_pos h, List.getElem?_map, List.getElem?_range h]
    rfl
  · rw [if_neg h, List.getElem?_eq_none]
    simpa using Nat.le_of_not_lt h

/-- C2: whenever the topics service call fails in any way, the outline is
the deterministic mock: exactly `slideCount` entries, the `i`-th
(1-indexed) titled `"<topic> - Topic <i>"` with description
`"This slide will cover aspect <i> of <topic>"` and `order = i`; the
fallback is total by construction. -/
theorem generate_outline_fallback_spec (topic : String) (n : Int)
    (svc : TopicsServiceResult) (hfail : topicsCallFails svc) (hn : 1 ≤ n) :
    ((generate_slide_topics topic n svc).length : Int) = n ∧
    ∀ i : Nat, (generate_slide_topics topic n svc)[i]? =
      if i < n.toNat then
        some { title := topic ++ " - Topic " ++ toString (i + 1)
               description := "This slide will cover aspect " ++ toString (i + 1) ++
                 " of " ++ topic
               order := (i : Int) + 1 }
      else none := by
  have hmock : generate_slide_topics topic n svc = generate_mock_topics topic n := by
    rcases hfail with h | ⟨tds, rfl, hb⟩
    · rw [h]; rfl
    · simp [generate_slide_topics, hb]
  rw [hmock]
  constructor
  · have : (generate_mock_topics topic n).length = n.toNat := by
      simp [generate_mock_topics]
    rw [this, Int.toNat_of_nonneg (by omega)]
  · intro i
    exact generate_mock_topics_getElem topic n i

/-- Witness for C2: with the service failing outright, the two-slide
outline for topic `T` is the 1-indexed mock sequence. -/
theorem generate_outline_fallback_spec_witness :
    ((generate_slide_topics "T" 2 .failure).length : Int) = 2 ∧
    (generate_slide_topics "T" 2 .failure)[1]? =
      some { title := "T - Topic 2", description := "This slide will cover aspect 2 of T",
             order := 2 } := by
  have H := generate_outline_fallback_spec "T" 2 .failure (Or.inl rfl) (by decide)
  refine ⟨H.1, ?_⟩
  have h1 := H.2 1
  simpa using h1

theorem generate_slides_go_length (content_format : String) (svc : Nat → ContentResult)
    (k : Nat) (ts : List SlideTopic) :
    (generate_slides_go content_format svc k ts).length = ts.length := by
  induction ts generalizing k with
  | nil => rfl
  | cons t ts ih => simpa [generate_slides_go] using ih (k + 1)

theorem generate_slides_go_getElem (content_format : String) (svc : Nat → ContentResult)
    (k : Nat) (ts : List SlideTopic) (i : Nat) :
    (generate_slides_go content_format svc k ts)[i]? =
      (ts[i]?).map fun t => slideFromResult content_format t (svc (k + i)) := by
  induction ts generalizing k i with
  | nil => rfl
  | cons t ts ih =>
    cases i with
    | zero => simp [generate_slides_go]
    | succ m =>
      have := ih (k + 1) m
      simpa [generate_slides_go, Nat.add_assoc, Nat.add_comm 1 m] using this

/-- C3: `generate_slides` returns one record per topic, in order; a failed
call for one topic yields the deterministic placeholder for exactly that
position, a successful call with both JSON fields yields the returned
title/content, and the record at a position depends only on that
position's call outcome. -/
theorem generate_content_isolation_spec (topics : List SlideTopic)
    (content_format : String) (svc : Nat → ContentResult) :
    (generate_slides topics content_format svc).length = topics.length ∧
    ∀ i : Nat, ∀ t, topics[i]? = some t →
      (contentCallFails (svc i) →
        (generate_slides topics content_format svc)[i]? =
          some (fallbackSlide content_format t)) ∧
      (∀ j ti ci, svc i = .success j → j.title = some ti → j.content = some ci →
        (generate_slides topics content_format svc)[i]? =
          some { title := ti, content := ci }) ∧
      (∀ svc2 : Nat → ContentResult, svc2 i = svc i →
        (generate_slides topics content_format svc2)[i]? =
          (generate_slides topics content_format svc)[i]?) := by
  constructor
  · exact generate_slides_go_length content_format svc 0 topics
  · intro i t ht
    have hget : (generate_slides topics content_format svc)[i]? =
        some (slideFromResult content_format t (svc i)) := by
      unfold generate_slides
      rw [generate_slides_go_getElem, ht]
      simp
    refine ⟨?_, ?_, ?_⟩
    · intro hfail
      rw [hget]
      rcases hfail with h | ⟨j, hj, hmiss⟩
      · rw [h]; rfl
      · rcases hmiss with hmt | hmc
        · cases hc : j.content <;> simp [hj, slideFromResult, hmt, hc]
        · cases hc : j.title <;> simp [hj, slideFromResult, hmc, hc]
    · intro j ti ci hj hti hci
      rw [hget, hj]
      simp [slideFromResult, hti, hci]
    · intro svc2 h2
      unfold generate_slides
      rw [generate_slides_go_getElem, generate_slides_go_getElem, ht, Nat.zero_add, h2]

/-- Witness for C3: a one-topic batch whose only call fails produces
exactly the bulleted placeholder for that topic. -/
theorem generate_content_isolation_spec_witness :
    (generate_slides [{ title := "A", description := "d" }] "bulleted_list"
        fun _ => .failure).length = 1 ∧
    (generate_slides [{ title := "A", description := "d" }] "bulleted_list"
        fun _ => .failure)[0]? =
      some (fallbackSlide "bulleted_list" { title := "A", description := "d" }) := by
  have H := generate_content_isolation_spec [{ title := "A", description := "d" }]
    "bulleted_list" fun _ => .failure
  exact ⟨H.1, (H.2 0 { title := "A", description := "d" } rfl).1 (Or.inl rfl)⟩

theorem loopSlides_length (config : PresentationConfig) :
    ∀ (sds : List SlideData) (es pool : List SlideModel),
      loopSlides config es sds = some pool →
      pool.length = max es.length sds.length := by
  intro sds
  induction sds with
  | nil =>
    intro es pool h
    have h' : some es = some pool := by cases es <;> simpa [loopSlides] using h
    cases h'
    simp
  | cons sd sds ih =>
    intro es pool h
    cases es with
    | nil =>
      cases hps : processSlide config true newLayoutSlide sd with
      | none => simp [loopSlides, hps] at h
      | some s =>
        cases hrest : loopSlides config [] sds with
        | none => simp [loopSlides, hps, hrest] at h
        | some rest =>
          simp only [loopSlides, hps, hrest, Option.pure_def, Option.bind_eq_bind,
            Option.some_bind, Option.some.injEq] at h
          subst h
          have := ih [] rest hrest
          simp only [List.length_cons, List.length_nil] at this ⊢
          omega
    | cons e es =>
      cases hps : processSlide config false e sd with
      | none => simp [loopSlides, hps] at h
      | some s =>
        cases hrest : loopSlides config es sds with
        | none => simp [loopSlides, hps, hrest] at h
        | some rest =>
          simp only [loopSlides, hps, hrest, Option.pure_def, Option.bind_eq_bind,
            Option.some_bind, Option.some.injEq] at h
          subst h
          have := ih es rest hrest
          simp only [List.length_cons] at this ⊢
          omega

theorem create_presentation_length (config : PresentationConfig)
    (tstate : TemplateState) (slides : List SlideData) (res : List SlideModel)
    (h : create_presentation config tstate slides = some res) :
    res.length = slides.length := by
  cases hp : loopSlides config (loadTemplate tstate) slides with
  | none => simp [create_presentation, hp] at h
  | some pool =>
    have hlen := loopSlides_length config slides (loadTemplate tstate) pool hp
    simp only [create_presentation, hp, Option.pure_def, Option.bind_eq_bind,
      Option.some_bind] at h
    split at h
    · cases h
      simp only [List.length_take]
      omega
    · cases h
      omega

/-- C1: a successful export of `n` slide records yields a deck of exactly
`n` slides, whatever the template state: missing slides are added and
surplus trailing template slides are removed. -/
theorem export_slide_count_spec (config : PresentationConfig)
    (tstate : TemplateState) (slides : List SlideData) (res : List SlideModel)
    (h : create_presentation config tstate slides = some res) :
    res.length = slides.length :=
  create_presentation_length config tstate slides res h

/-- Witness for C1: exporting one record over a three-slide template
leaves exactly one slide. -/
theorem export_slide_count_spec_witness :
    ([{ background := none, hasTitlePlaceholder := true, titleText := "t",
        titleColor := some (0, 0, 0), hasContentPlaceholder := true,
        contentText := "c", contentColor := some (0, 0, 0) }] : List SlideModel).length =
      ([{ title := "t", content := "c" }] : List SlideData).length :=
  export_slide_count_spec {} (.present [{}, {}, {}]) [{ title := "t", content := "c" }]
    _ (by decide)

theorem processSlide_background_applied (config : PresentationConfig) (is_new : Bool)
    (base : SlideModel) (sd : SlideData) (s : SlideModel)
    (h : processSlide config is_new base sd = some s)
    (hcond : is_new = true ∨ config.background_color ≠ "#ffffff") :
    s.background = hex_to_rgb config.background_color := by
  rcases hbg : hex_to_rgb config.background_color with _ | bg <;>
    rcases htc : hex_to_rgb config.text_color with _ | tc <;>
    rcases hT : base.hasTitlePlaceholder <;>
    rcases hC : base.hasContentPlaceholder <;>
    rcases hN : is_new <;>
    by_cases hD : config.background_color = "#ffffff" <;>
    simp_all [processSlide] <;> rw [← h]

theorem processSlide_background_kept (config : PresentationConfig)
    (base : SlideModel) (sd : SlideData) (s : SlideModel)
    (h : processSlide config false base sd = some s)
    (hD : config.background_color = "#ffffff") :
    s.background = base.background := by
  rcases htc : hex_to_rgb config.text_color with _ | tc <;>
    rcases hT : base.hasTitlePlaceholder <;>
    rcases hC : base.hasContentPlaceholder <;>
    simp_all [processSlide] <;> rw [← h]

theorem loopSlides_getElem (config : PresentationConfig) :
    ∀ (sds : List SlideData) (es pool : List SlideModel),
      loopSlides config es sds = some pool →
      ∀ (i : Nat) (s : SlideModel), pool[i]? = some s →
        (∀ e sd, es[i]? = some e → sds[i]? = some sd →
          processSlide config false e sd = some s) ∧
        (∀ e, es[i]? = some e → sds[i]? = none → s = e) ∧
        (es[i]? = none → ∀ sd, sds[i]? = some sd →
          processSlide config true newLayoutSlide sd = some s) := by
  intro sds
  induction sds with
  | nil =>
    intro es pool h i s hs
    have h' : some es = some pool := by cases es <;> simpa [loopSlides] using h
    cases h'
    refine ⟨?_, ?_, ?_⟩
    · intro e sd _ hsd; simp at hsd
    · intro e he _
      rw [he] at hs
      exact (Option.some.injEq _ _).mp hs.symm
    · intro _ sd hsd; simp at hsd
  | cons sd sds ih =>
    intro es pool h i s hs
    cases es with
    | nil =>
      cases hps : processSlide config true newLayoutSlide sd with
      | none => simp [loopSlides, hps] at h
      | some s0 =>
        cases hrest : loopSlides config [] sds with
        | none => simp [loopSlides, hps, hrest] at h
        | some rest =>
          simp only [loopSlides, hps, hrest, Option.pure_def, Option.bind_eq_bind,
            Option.some_bind, Option.some.injEq] at h
          subst h
          cases i with
          | zero =>
            simp only [List.getElem?_cons_zero, Option.some.injEq] at hs
            subst hs
            refine ⟨?_, ?_, ?_⟩
            · intro e _ he _; simp at he
            · intro e he _; simp at he
            · intro _ sd2 hsd2
              simp only [List.getElem?_cons_zero, Option.some.injEq] at hsd2
              subst hsd2
              exact hps
          | succ m =>
            simp only [List.getElem?_cons_succ] at hs
            have := ih [] rest hrest m s hs
            simpa using this
    | cons e es =>
      cases hps : processSlide config false e sd with
      | none => simp [loopSlides, hps] at h
      | some s0 =>
        cases hrest : loopSlides config es sds with
        | none => simp [loopSlides, hps, hrest] at h
        | some rest =>
          simp only [loopSlides, hps, hrest, Option.pure_def, Option.bind_eq_bind,
            Option.some_bind, Option.some.injEq] at h
          subst h
          cases i with
          | zero =>
            simp only [List.getElem?_cons_zero, Option.some.injEq] at hs
            subst hs
            refine ⟨?_, ?_, ?_⟩
            · intro e2 sd2 he2 hsd2
              simp only [List.getElem?_cons_zero, Option.some.injEq] at he2 hsd2
              subst he2; subst hsd2
              exact hps
            · intro e2 _ hsd2; simp at hsd2
            · intro he2; simp at he2
          | succ m =>
            simp only [List.getElem?_cons_succ] at hs ⊢
            exact ih es rest hrest m s hs

/-- C5: in a successful export, a newly created slide (index at or past
the template pool) always receives the configured background color, while
a slide reused from the template keeps its own background exactly when
the configured background is the default `"#ffffff"` and receives the
configured one otherwise. -/
theorem export_background_spec (config : PresentationConfig)
    (tstate : TemplateState) (slides : List SlideData) (res : List SlideModel)
    (h : create_presentation config tstate slides = some res) :
    ∀ (i : Nat) (s : SlideModel), res[i]? = some s →
      ((loadTemplate tstate).length ≤ i →
        s.background = hex_to_rgb config.background_color) ∧
      (∀ e, (loadTemplate tstate)[i]? = some e →
        s.background = if config.background_color = "#ffffff" then e.background
          else hex_to_rgb config.background_color) := by
  intro i s hs
  have hreslen : res.length = slides.length :=
    create_presentation_length config tstate slides res h
  have hi : i < slides.length := by
    obtain ⟨hlt, -⟩ := List.getElem?_eq_some.mp hs
    omega
  obtain ⟨pool, hp, hpool⟩ :
      ∃ pool, loopSlides config (loadTemplate tstate) slides = some pool ∧
        pool[i]? = some s := by
    cases hp : loopSlides config (loadTemplate tstate) slides with
    | none => simp [create_presentation, hp] at h
    | some pool =>
      refine ⟨pool, rfl, ?_⟩
      simp only [create_presentation, hp, Option.pure_def, Option.bind_eq_bind,
        Option.some_bind] at h
      split at h
      · cases h
        rwa [List.getElem?_take_of_lt hi] at hs
      · cases h
        exact hs
  have hsd : slides[i]? = some (slides.get ⟨i, hi⟩) := List.getElem?_eq_getElem hi
  have H := loopSlides_getElem config slides (loadTemplate tstate) pool hp i s hpool
  constructor
  · intro hle
    have hnone : (loadTemplate tstate)[i]? = none := List.getElem?_eq_none hle
    have := H.2.2 hnone (slides.get ⟨i, hi⟩) hsd
    exact processSlide_background_applied config true newLayoutSlide
      (slides.get ⟨i, hi⟩) s this (Or.inl rfl)
  · intro e he
    have hproc := H.1 e (slides.get ⟨i, hi⟩) he hsd
    by_cases hD : config.background_color = "#ffffff"
    · rw [if_pos hD]
      exact processSlide_background_kept config e (slides.get ⟨i, hi⟩) s hproc hD
    · rw [if_neg hD]
      exact processSlide_background_applied config false e
        (slides.get ⟨i, hi⟩) s hproc (Or.inr hD)

/-- Witness for C5: with configured background `#000000` over a one-slide
template whose slide carries its own background, the reused slide receives
the configured color. -/
theorem export_background_spec_witness :
    ({ background := some (0, 0, 0), hasTitlePlaceholder := true, titleText := "t",
       titleColor := some (0, 0, 0), hasContentPlaceholder := true, contentText := "c",
       contentColor := some (0, 0, 0) } : SlideModel).background =
      hex_to_rgb "#000000" := by
  have H := export_background_spec { background_color := "#000000" }
    (.present [{ background := some (9, 9, 9) }]) [{ title := "t", content := "c" }]
    [{ background := some (0, 0, 0), hasTitlePlaceholder := true, titleText := "t",
       titleColor := some (0, 0, 0), hasContentPlaceholder := true, contentText := "c",
       contentColor := some (0, 0, 0) }]
    (by decide) 0
    { background := some (0, 0, 0), hasTitlePlaceholder := true, titleText := "t",
      titleColor := some (0, 0, 0), hasContentPlaceholder := true, contentText := "c",
      contentColor := some (0, 0, 0) } (by decide)
  have h2 := H.2 { background := some (9, 9, 9) } (by decide)
  rw [if_neg (by decide)] at h2
  exact h2

/-! ### C10: `_hex_to_rgb` on well-formed and malformed color strings -/

theorem hexDigitVal_le (c : Char) (h : isHexDigitChar c = true) : hexDigitVal c ≤ 15 := by
  simp only [isHexDigitChar, Bool.or_eq_true, Bool.and_eq_true, decide_eq_true_eq] at h
  unfold hexDigitVal
  split_ifs with h1 h2 h3 <;>
    simp_all [Bool.and_eq_true, decide_eq_true_eq] <;> omega

theorem pyIntHex_pair (a b : Char) (ha : isHexDigitChar a = true)
    (hb : isHexDigitChar b = true) :
    pyIntHex [a, b] = some (16 * hexDigitVal a + hexDigitVal b) := by
  simp [pyIntHex, ha, hb]

theorem hex_hash_not_digit : isHexDigitChar '#' = false := by decide

/-- C10 counterexample: not every string outside the `#`-plus-six-hex-digits
form raises — a bare six-hex-digit string with no `#` is converted
successfully. -/
theorem hex_to_rgb_counterexample :
    specHexForm "ff00aa" = false ∧ hex_to_rgb "ff00aa" = some (255, 0, 170) := by
  constructor
  · decide
  · decide

/-- C10 (amended): every string of the form `#` plus six hex digits
converts to a byte triple with components in `[0, 255]`; every color in
the two option tables has that form (so table-supplied colors never make
the exporter fail); and some malformed strings do raise (e.g. `"#fff"`),
though not every string outside the form raises. -/
theorem hex_to_rgb_spec :
    (∀ s : String, specHexForm s = true →
      ∃ r g b : Nat, hex_to_rgb s = some (r, g, b) ∧ r ≤ 255 ∧ g ≤ 255 ∧ b ≤ 255) ∧
    ((BACKGROUND_COLORS ++ TEXT_COLORS).all fun p => specHexForm p.2) = true ∧
    hex_to_rgb "#fff" = none := by
  refine ⟨?_, by decide, by decide⟩
  intro s h
  unfold specHexForm at h
  split at h
  case h_2 => exact absurd h (by simp)
  case h_1 rest heq =>
    simp only [Bool.and_eq_true, decide_eq_true_eq] at h
    obtain ⟨hlen, hall⟩ := h
    rcases rest with _ | ⟨a, rest⟩
    · simp at hlen
    rcases rest with _ | ⟨b, rest⟩
    · simp at hlen
    rcases rest with _ | ⟨c, rest⟩
    · simp at hlen
    rcases rest with _ | ⟨d, rest⟩
    · simp at hlen
    rcases rest with _ | ⟨e, rest⟩
    · simp at hlen
    rcases rest with _ | ⟨f, rest⟩
    · simp at hlen
    rcases rest with _ | ⟨x, rest⟩
    swap
    · simp at hlen
    simp only [List.all_cons, List.all_nil, Bool.and_eq_true, Bool.and_true] at hall
    obtain ⟨ha, hb, hc, hd, he, hf⟩ := hall
    have hane : ¬ (a = '#') := by
      intro hh
      rw [hh] at ha
      exact absurd ha (by decide)
    have hdw : List.dropWhile (fun ch => ch = '#') ['#', a, b, c, d, e, f] =
        [a, b, c, d, e, f] := by
      simp [List.dropWhile_cons, hane]
    refine ⟨16 * hexDigitVal a + hexDigitVal b, 16 * hexDigitVal c + hexDigitVal d,
      16 * hexDigitVal e + hexDigitVal f, ?_, ?_, ?_, ?_⟩
    · unfold hex_to_rgb hex_to_rgb_chars
      rw [heq]
      simp only [hdw]
      rw [show pySlice [a, b, c, d, e, f] 0 2 = [a, b] from rfl,
        show pySlice [a, b, c, d, e, f] 2 4 = [c, d] from rfl,
        show pySlice [a, b, c, d, e, f] 4 6 = [e, f] from rfl,
        pyIntHex_pair a b ha hb, pyIntHex_pair c d hc hd, pyIntHex_pair e f he hf]
    · have h1 := hexDigitVal_le a ha
      have h2 := hexDigitVal_le b hb
      omega
    · have h1 := hexDigitVal_le c hc
      have h2 := hexDigitVal_le d hd
      omega
    · have h1 := hexDigitVal_le e he
      have h2 := hexDigitVal_le f hf
      omega

/-- Witness for C10: the table color `#1976d2` has the hex form and
converts to an in-range byte triple. -/
theorem hex_to_rgb_spec_witness :
    specHexForm "#1976d2" = true ∧
    ∃ r g b : Nat, hex_to_rgb "#1976d2" = some (r, g, b) ∧ r ≤ 255 ∧ g ≤ 255 ∧ b ≤ 255 :=
  ⟨by decide, hex_to_rgb_spec.1 "#1976d2" (by decide)⟩

end SlideDeckAI
